import Mathlib

/-!
Verification of the Fourhills stat-block renderer (`fourhills/stats.py`).

The data model and the two renderers `summary_info` and `battle_info` are
translated from `src/fourhills/stats.py`.  The text-layout primitives
`centre_pad`, `format_list` and `format_indented_paragraph` live in
`fourhills/text_utils.py`, which is not part of the provided sources; they
are modelled from the specification (sections 4.1 to 4.3) and are marked as
such in their doc comments.

Python `Dict[str, ...]` fields preserve insertion order, so they are
modelled as association lists `List (String × String)`; optional fields are
`Option`s, and Python truthiness (`if self.skills:`) is modelled explicitly
(`none` and an empty collection are both falsy).  Rendering that can raise
(the width check, and `KeyError` on attack detail lookups) is modelled in
`Except String`.
-/

namespace Fourhills

/-- A run of `n` spaces. -/
def spaces (n : Nat) : String :=
  String.mk (List.replicate n ' ')

/-- A separator line of `n` dashes, the translation of `"-" * line_width`. -/
def dashLine (n : Nat) : String :=
  String.mk (List.replicate n '-')

/-- A separator line of `n` equals signs, the translation of `"=" * line_width`. -/
def eqLine (n : Nat) : String :=
  String.mk (List.replicate n '=')

/-- Translation of Python `str.capitalize()`: first character upper-cased,
the remaining characters lower-cased (ASCII content assumed). -/
def pyCapitalize (s : String) : String :=
  match s.data with
  | [] => ""
  | c :: cs => String.mk (c.toUpper :: cs.map Char.toLower)

/-- Translation of Python `"".join(strings)`. -/
def strJoin : List String → String
  | [] => ""
  | s :: rest => s ++ strJoin rest

/-- Modelled from the spec: `centre_pad(text, width)` of `text_utils.py`
(missing from the sources).  Centres `text` in a field of `width` spaces;
when the total padding is odd the extra space goes on the right; text that
does not fit is emitted unpadded (overflow, never truncation). -/
def centre_pad (text : String) (width : Nat) : String :=
  if width ≤ text.length then
    text
  else
    let pad := width - text.length
    let left := pad / 2
    spaces left ++ text ++ spaces (pad - left)

/-- Splits a character list into maximal space-free runs, accumulating the
current run in reverse. -/
def splitWsAux : List Char → List Char → List String
  | [], acc => if acc.isEmpty then [] else [String.mk acc.reverse]
  | c :: cs, acc =>
    if c = ' ' then
      (if acc.isEmpty then splitWsAux cs [] else String.mk acc.reverse :: splitWsAux cs [])
    else
      splitWsAux cs (c :: acc)

/-- Whitespace tokenisation of a string, the translation of Python
`str.split()` restricted to spaces (the only whitespace the renderer
produces): maximal nonempty runs of non-space characters. -/
def wsTokens (text : String) : List String :=
  splitWsAux text.data []

/-- Greedy line filling over a token list: the current line accumulates the
next token while `current + 1 + token ≤ width`; otherwise the line is
emitted and the token starts a new line behind the hanging indent. -/
def wrapAux (width : Nat) (indent : String) : List String → String → List String
  | [], cur => [cur]
  | t :: ts, cur =>
    if cur.length + 1 + t.length ≤ width then
      wrapAux width indent ts (cur ++ " " ++ t)
    else
      cur :: wrapAux width indent ts (indent ++ t)

/-- The hanging indent used for continuation lines of wrapped paragraphs.
The spec fixes only that it is a run of spaces; its width is not given,
so it is modelled as 4 spaces. -/
def hangingIndentWidth : Nat := 4

/-- Modelled from the spec: `format_indented_paragraph(text, width)` of
`text_utils.py` (missing from the sources).  Greedy word wrap; lines after
the first carry a hanging indent; lines are not padded to `width`; a lone
over-long token overflows; empty input yields no lines. -/
def format_indented_paragraph (text : String) (width : Nat) : List String :=
  match wsTokens text with
  | [] => []
  | t :: ts => wrapAux width (spaces hangingIndentWidth) ts t

/-- Modelled from the spec: `format_list(title, items, width)` of
`text_utils.py` (missing from the sources).  Joins the items with `", "`,
puts `"title: "` in front and wraps the result as a paragraph. -/
def format_list (title : String) (items : List String) (width : Nat) : List String :=
  format_indented_paragraph (title ++ ": " ++ String.intercalate ", " items) width

/-- Association-list lookup, the translation of a Python dict lookup
(`details["hit"]` and `"info" in details`). -/
def alookup (d : List (String × String)) (k : String) : Option String :=
  (d.find? (fun p => p.1 = k)).map (fun p => p.2)

/-- Python truthiness of an optional collection: `None` and an empty
collection are falsy. -/
def otruthy (o : Option (List α)) : Bool :=
  match o with
  | none => false
  | some l => !l.isEmpty

/-- The collection carried by an optional field (empty when absent). -/
def oval (o : Option (List α)) : List α :=
  match o with
  | none => []
  | some l => l

/-- Python truthiness of an optional string: `None` and `""` are falsy. -/
def struthy (o : Option String) : Bool :=
  match o with
  | none => false
  | some s => !s.isEmpty

/-- The string carried by an optional field (empty when absent). -/
def sval (o : Option String) : String :=
  match o with
  | none => ""
  | some s => s

/-- The stat block for a monster or character (`stats.py`, `StatBlock`).
`challenge` is a float in the source and only ever appears interpolated
into the challenge-rating line, so it is modelled as its rendered decimal
string; every other field keeps its source type (dicts as ordered
association lists, `Optional` as `Option`). -/
structure StatBlock where
  name : String
  size : String
  creature_type : String
  alignment : String
  ac : String
  hp : String
  speed : String
  ability : List (String × Int)
  challenge : String
  passive_perception : Int
  saving_throws : Option (List (String × String)) := none
  skills : Option (List (String × String)) := none
  damage_vulnerabilities : Option (List String) := none
  damage_resistances : Option (List String) := none
  damage_immunities : Option (List String) := none
  condition_immunities : Option (List String) := none
  special_senses : Option (List (String × String)) := none
  languages : Option (List String) := none
  special_traits : Option (List (String × String)) := none
  melee_attacks : Option (List (String × List (String × String))) := none
  ranged_attacks : Option (List (String × List (String × String))) := none
  multiattack : Option String := none
  other_actions : Option (List (String × String)) := none
  description : Option String := none
deriving Repr, DecidableEq

/-- `calculate_ability_modifier` (`stats.py` line 59):
`math.floor((ability_score - 10) / 2)`.  Python true division by 2
followed by `math.floor` is exactly floor division by 2, so the
translation uses `Int.fdiv`; the agreement with the rational floor is
proved below (`calculate_ability_modifier_eq_floor`). -/
def calculate_ability_modifier (ability_score : Int) : Int :=
  Int.fdiv (ability_score - 10) 2

/-- Python `f"{n:+d}"`: the integer with an explicit sign. -/
def signedStr (n : Int) : String :=
  if n < 0 then toString n else "+" ++ toString n

/-- One ability-score cell before centring: `f"{score:d}({modifier:+d})"`
(`stats.py` line 140). -/
def scoreCell (score : Int) : String :=
  toString score ++ "(" ++ signedStr (calculate_ability_modifier score) ++ ")"

/-- `summary_info` (`stats.py` lines 61-90): centred header (name, with
`" x{quantity}"` when the quantity is truthy), a full-width `=` rule, and
the size/type/alignment line.  `quantity = some 0` is falsy in Python. -/
def summary_info (sb : StatBlock) (line_width : Nat) (quantity : Option Int) : List String :=
  let header_text :=
    match quantity with
    | some q => if q ≠ 0 then sb.name ++ " x" ++ toString q else sb.name
    | none => sb.name
  [centre_pad header_text line_width,
   eqLine line_width,
   pyCapitalize sb.size ++ " " ++ sb.creature_type ++ ", " ++ sb.alignment]

/-! ### The sections of `battle_info`, in source order (`stats.py` lines 92-257) -/

/-- `stats.py` line 120: `f"AC {self.ac}"`. -/
def acLine (sb : StatBlock) : String := "AC " ++ sb.ac

/-- `stats.py` line 121: `f"HP {self.hp}"`. -/
def hpLine (sb : StatBlock) : String := "HP " ++ sb.hp

/-- `stats.py` line 122: `f"Speed {self.speed}"`. -/
def speedLine (sb : StatBlock) : String := "Speed " ++ sb.speed

/-- `stats.py` line 128: `math.floor(line_width / len(self.ability))`. -/
def abilityWidth (sb : StatBlock) (line_width : Nat) : Nat :=
  line_width / sb.ability.length

/-- The joined ability-name cells (`stats.py` lines 130-135, 144). -/
def abilityNamesJoined (sb : StatBlock) (line_width : Nat) : String :=
  strJoin (sb.ability.map (fun p => centre_pad p.1 (abilityWidth sb line_width)))

/-- The joined ability-score cells (`stats.py` lines 131-141, 145). -/
def abilityScoresJoined (sb : StatBlock) (line_width : Nat) : String :=
  strJoin (sb.ability.map (fun p => centre_pad (scoreCell p.2) (abilityWidth sb line_width)))

/-- The emitted ability-name row (`stats.py` line 144). -/
def abilityNameRow (sb : StatBlock) (line_width : Nat) : String :=
  centre_pad (abilityNamesJoined sb line_width) line_width

/-- The emitted ability-score row (`stats.py` line 145). -/
def abilityScoreRow (sb : StatBlock) (line_width : Nat) : String :=
  centre_pad (abilityScoresJoined sb line_width) line_width

/-- Saving-throws section (`stats.py` lines 150-153); omitted when the
field is falsy. -/
def savingThrowsLines (sb : StatBlock) (line_width : Nat) : List String :=
  if otruthy sb.saving_throws then
    format_list "Saving throws"
      ((oval sb.saving_throws).map (fun p => p.1 ++ " " ++ p.2)) line_width
  else []

/-- Skills section (`stats.py` lines 154-157). -/
def skillsLines (sb : StatBlock) (line_width : Nat) : List String :=
  if otruthy sb.skills then
    format_list "Skills"
      ((oval sb.skills).map (fun p => p.1 ++ " " ++ p.2)) line_width
  else []

/-- Damage-vulnerabilities section (`stats.py` lines 158-164). -/
def vulnerabilitiesLines (sb : StatBlock) (line_width : Nat) : List String :=
  if otruthy sb.damage_vulnerabilities then
    format_list "Damage vulnerabilities" (oval sb.damage_vulnerabilities) line_width
  else []

/-- Damage-resistances section (`stats.py` lines 165-169). -/
def resistancesLines (sb : StatBlock) (line_width : Nat) : List String :=
  if otruthy sb.damage_resistances then
    format_list "Damage resistances" (oval sb.damage_resistances) line_width
  else []

/-- Damage-immunities section (`stats.py` lines 170-174). -/
def immunitiesLines (sb : StatBlock) (line_width : Nat) : List String :=
  if otruthy sb.damage_immunities then
    format_list "Damage immunities" (oval sb.damage_immunities) line_width
  else []

/-- Condition-immunities section (`stats.py` lines 175-180). -/
def conditionImmunitiesLines (sb : StatBlock) (line_width : Nat) : List String :=
  if otruthy sb.condition_immunities then
    format_list "Condition immunities" (oval sb.condition_immunities) line_width
  else []

/-- `stats.py` line 182: `f"Passive perception: {self.passive_perception}"`. -/
def passivePerceptionLine (sb : StatBlock) : String :=
  "Passive perception: " ++ toString sb.passive_perception

/-- Special-senses section (`stats.py` lines 183-188). -/
def sensesLines (sb : StatBlock) (line_width : Nat) : List String :=
  if otruthy sb.special_senses then
    format_list "Senses"
      ((oval sb.special_senses).map (fun p => p.1 ++ " " ++ p.2)) line_width
  else []

/-- Languages section (`stats.py` line 190):
`format_list("Languages", self.languages or ["none"], line_width)`.
Python `or` keeps the left operand when it is truthy. -/
def languagesLines (sb : StatBlock) (line_width : Nat) : List String :=
  format_list "Languages"
    (if otruthy sb.languages then oval sb.languages else ["none"]) line_width

/-- `stats.py` line 193: `f"Challenge: {self.challenge}"`. -/
def challengeLine (sb : StatBlock) : String :=
  "Challenge: " ++ sb.challenge

/-- Special-traits paragraphs (`stats.py` lines 200-206). -/
def traitsLines (sb : StatBlock) (line_width : Nat) : List String :=
  if otruthy sb.special_traits then
    (oval sb.special_traits).flatMap
      (fun p => format_indented_paragraph (pyCapitalize p.1 ++ ": " ++ p.2) line_width)
  else []

/-- The fixed text of one melee-attack paragraph, given the four looked-up
details (`stats.py` lines 216-221). -/
def meleeBase (name hit reach targets damage : String) : String :=
  pyCapitalize name ++ ": melee weapon attack, " ++ hit ++ " to hit, reach " ++
    reach ++ ", " ++ targets ++ ". Hit damage: " ++ damage ++ "."

/-- The fixed text of one ranged-attack paragraph (`stats.py` lines
229-234).  The source has no space after the comma that follows the range. -/
def rangedBase (name hit range targets damage : String) : String :=
  pyCapitalize name ++ ": ranged weapon attack, " ++ hit ++ " to hit, range " ++
    range ++ "," ++ targets ++ ". Hit damage: " ++ damage ++ "."

/-- The optional trailing info sentence (`stats.py` lines 222-223 and
235-236): when the details contain an `"info"` key, `f" {info}."` is
appended to the paragraph. -/
def withInfo (d : List (String × String)) (base : String) : String :=
  match alookup d "info" with
  | some info => base ++ " " ++ info ++ "."
  | none => base

/-- One melee attack's paragraph text.  The dict lookups `hit`, `reach`,
`targets`, `damage` happen in that order and a missing key raises
`KeyError` (`stats.py` lines 216-223). -/
def meleeAttackText (name : String) (d : List (String × String)) : Except String String :=
  match alookup d "hit", alookup d "reach", alookup d "targets", alookup d "damage" with
  | some hit, some reach, some targets, some damage =>
    .ok (withInfo d (meleeBase name hit reach targets damage))
  | none, _, _, _ => .error "KeyError: hit"
  | _, none, _, _ => .error "KeyError: reach"
  | _, _, none, _ => .error "KeyError: targets"
  | _, _, _, none => .error "KeyError: damage"

/-- One ranged attack's paragraph text; lookups `hit`, `range`, `targets`,
`damage` in that order (`stats.py` lines 229-236). -/
def rangedAttackText (name : String) (d : List (String × String)) : Except String String :=
  match alookup d "hit", alookup d "range", alookup d "targets", alookup d "damage" with
  | some hit, some range, some targets, some damage =>
    .ok (withInfo d (rangedBase name hit range targets damage))
  | none, _, _, _ => .error "KeyError: hit"
  | _, none, _, _ => .error "KeyError: range"
  | _, _, none, _ => .error "KeyError: targets"
  | _, _, _, none => .error "KeyError: damage"

/-- The attack loops (`stats.py` lines 215-224 and 228-237): each attack's
paragraph is built, wrapped and appended in turn; the first missing key
aborts the whole render. -/
def renderAttacks (fmt : String → List (String × String) → Except String String)
    (line_width : Nat) : List (String × List (String × String)) → Except String (List String)
  | [] => .ok []
  | (n, d) :: rest =>
    match fmt n d with
    | .error e => .error e
    | .ok t =>
      match renderAttacks fmt line_width rest with
      | .error e => .error e
      | .ok ls => .ok (format_indented_paragraph t line_width ++ ls)

/-- Melee-attacks section (`stats.py` lines 214-224). -/
def meleeSection (sb : StatBlock) (line_width : Nat) : Except String (List String) :=
  if otruthy sb.melee_attacks then
    renderAttacks meleeAttackText line_width (oval sb.melee_attacks)
  else .ok []

/-- Ranged-attacks section (`stats.py` lines 227-237). -/
def rangedSection (sb : StatBlock) (line_width : Nat) : Except String (List String) :=
  if otruthy sb.ranged_attacks then
    renderAttacks rangedAttackText line_width (oval sb.ranged_attacks)
  else .ok []

/-- Multiattack paragraph (`stats.py` lines 239-244); the field is a string,
so `""` is falsy and skipped like `None`. -/
def multiattackLines (sb : StatBlock) (line_width : Nat) : List String :=
  if struthy sb.multiattack then
    format_indented_paragraph ("Multiattack: " ++ sval sb.multiattack) line_width
  else []

/-- Other-actions paragraphs (`stats.py` lines 247-250). -/
def otherActionsLines (sb : StatBlock) (line_width : Nat) : List String :=
  if otruthy sb.other_actions then
    (oval sb.other_actions).flatMap
      (fun p => format_indented_paragraph (pyCapitalize p.1 ++ ": " ++ p.2) line_width)
  else []

/-- Description paragraph (`stats.py` lines 254-255). -/
def descriptionLines (sb : StatBlock) (line_width : Nat) : List String :=
  if struthy sb.description then
    format_indented_paragraph (sval sb.description) line_width
  else []

/-- The width error message of `stats.py` lines 112-114. -/
def widthErrMsg : String :=
  "Width must be at least 56 for there to be room for all scores."

/-- The full line list of `battle_info` once the attack sections have
rendered, appended in the source's order (`stats.py` lines 117-257). -/
def assembled (sb : StatBlock) (line_width : Nat) (ml rl : List String) : List String :=
  acLine sb :: hpLine sb :: speedLine sb ::
  dashLine line_width ::
  abilityNameRow sb line_width :: abilityScoreRow sb line_width ::
  dashLine line_width ::
  (savingThrowsLines sb line_width ++
   (skillsLines sb line_width ++
    (vulnerabilitiesLines sb line_width ++
     (resistancesLines sb line_width ++
      (immunitiesLines sb line_width ++
       (conditionImmunitiesLines sb line_width ++
        (passivePerceptionLine sb ::
         (sensesLines sb line_width ++
          (languagesLines sb line_width ++
           (challengeLine sb ::
            "" :: centre_pad "Special traits" line_width :: dashLine line_width ::
            (traitsLines sb line_width ++
             ("" :: centre_pad "Actions" line_width :: dashLine line_width ::
              (ml ++
               (rl ++
                (multiattackLines sb line_width ++
                 (otherActionsLines sb line_width ++
                  ("" :: descriptionLines sb line_width)))))))))))))))))

/-- `battle_info` (`stats.py` lines 92-257).  Widths below 56 raise a
`ValueError` before any line is built; a missing attack-detail key raises
`KeyError` (melee attacks are rendered before ranged ones, so a melee
error surfaces first); otherwise the sections are emitted in source
order. -/
def battle_info (sb : StatBlock) (line_width : Nat) : Except String (List String) :=
  if line_width < 56 then
    .error widthErrMsg
  else
    match meleeSection sb line_width with
    | .error e => .error e
    | .ok ml =>
      match rangedSection sb line_width with
      | .error e => .error e
      | .ok rl => .ok (assembled sb line_width ml rl)

/-- The lines of a successful render (empty on error); used to state
properties of concrete renders. -/
def linesOf (r : Except String (List String)) : List String :=
  match r with
  | .ok ls => ls
  | .error _ => []

instance {α β : Type} [DecidableEq α] [DecidableEq β] : DecidableEq (Except α β) :=
  fun a b =>
    match a, b with
    | Except.ok x, Except.ok y =>
      if h : x = y then Decidable.isTrue (by rw [h]) else Decidable.isFalse (by simp [h])
    | Except.error x, Except.error y =>
      if h : x = y then Decidable.isTrue (by rw [h]) else Decidable.isFalse (by simp [h])
    | Except.ok _, Except.error _ => Decidable.isFalse (by simp)
    | Except.error _, Except.ok _ => Decidable.isFalse (by simp)

/-- The melee-attack mappings the render visits (none when the field is
falsy). -/
def meleeList (sb : StatBlock) : List (String × List (String × String)) :=
  if otruthy sb.melee_attacks then oval sb.melee_attacks else []

/-- The ranged-attack mappings the render visits. -/
def rangedList (sb : StatBlock) : List (String × List (String × String)) :=
  if otruthy sb.ranged_attacks then oval sb.ranged_attacks else []

/-- The four keys a melee attack's details must contain. -/
def meleeKeysOk (d : List (String × String)) : Prop :=
  (alookup d "hit").isSome ∧ (alookup d "reach").isSome ∧
    (alookup d "targets").isSome ∧ (alookup d "damage").isSome

/-- The four keys a ranged attack's details must contain. -/
def rangedKeysOk (d : List (String × String)) : Prop :=
  (alookup d "hit").isSome ∧ (alookup d "range").isSome ∧
    (alookup d "targets").isSome ∧ (alookup d "damage").isSome

/-- Every attack mapping of the stat block has its required keys. -/
def attacksWellFormed (sb : StatBlock) : Prop :=
  (∀ p ∈ meleeList sb, meleeKeysOk p.2) ∧ (∀ p ∈ rangedList sb, rangedKeysOk p.2)

instance (d : List (String × String)) : Decidable (meleeKeysOk d) := by
  unfold meleeKeysOk; infer_instance

instance (d : List (String × String)) : Decidable (rangedKeysOk d) := by
  unfold rangedKeysOk; infer_instance

instance (sb : StatBlock) : Decidable (attacksWellFormed sb) := by
  unfold attacksWellFormed; infer_instance

/-- The state-passing reading of the `battle_info` method: the receiver is
threaded through the call.  The method body (`stats.py` lines 92-257) reads
fields of `self` but contains no assignment to `self` or its fields, so the
outgoing state is the incoming receiver. -/
def battle_infoSt (sb : StatBlock) (line_width : Nat) :
    Except String (List String) × StatBlock :=
  (battle_info sb line_width, sb)

/-- The state-passing reading of the `summary_info` method (`stats.py`
lines 61-90): no field of `self` is assigned. -/
def summary_infoSt (sb : StatBlock) (line_width : Nat) (quantity : Option Int) :
    List String × StatBlock :=
  (summary_info sb line_width quantity, sb)

/-- A minimal concrete stat block (only required fields), used to evaluate
the renderers on a concrete input. -/
def exampleStat : StatBlock := {
  name := "Lion"
  size := "large"
  creature_type := "beast"
  alignment := "unaligned"
  ac := "15"
  hp := "26 (4d10+4)"
  speed := "50 ft."
  ability := [("STR", 17), ("DEX", 15), ("CON", 13), ("INT", 3), ("WIS", 12), ("CHA", 8)]
  challenge := "1.0"
  passive_perception := 13 }

/-- A concrete stat block with every optional field populated, used to
evaluate the renderers on a concrete input. -/
def fullStat : StatBlock := {
  name := "Chief"
  size := "medium"
  creature_type := "humanoid"
  alignment := "lawful evil"
  ac := "16"
  hp := "33 (6d8+6)"
  speed := "30 ft."
  ability := [("STR", 14), ("DEX", 12), ("CON", 13), ("INT", 10), ("WIS", 11), ("CHA", 15)]
  challenge := "2.0"
  passive_perception := 10
  saving_throws := some [("STR", "+4"), ("DEX", "+3")]
  skills := some [("Perception", "+2")]
  damage_vulnerabilities := some ["fire"]
  damage_resistances := some ["cold"]
  damage_immunities := some ["poison"]
  condition_immunities := some ["prone"]
  special_senses := some [("darkvision", "60 ft.")]
  languages := some ["Common"]
  special_traits := some [("brave", "Has advantage against being frightened.")]
  melee_attacks := some [("mace", [("hit", "+4"), ("reach", "5 ft."),
    ("targets", "one target"), ("damage", "5 (1d6+2)"), ("info", "Swings twice")])]
  ranged_attacks := some [("sling", [("hit", "+3"), ("range", "30/120 ft."),
    ("targets", "one target"), ("damage", "4 (1d4+2)")])]
  multiattack := some "Makes two mace attacks."
  other_actions := some [("command", "Directs an ally to strike.")]
  description := some "A battle-scarred leader." }

/-! ### Layout lemmas -/

theorem spaces_length (n : Nat) : (spaces n).length = n := by
  simp [spaces, String.length]

theorem dashLine_length (n : Nat) : (dashLine n).length = n := by
  simp [dashLine, String.length]

theorem eqLine_length (n : Nat) : (eqLine n).length = n := by
  simp [eqLine, String.length]

theorem string_length_append (s t : String) : (s ++ t).length = s.length + t.length :=
  String.length_append s t

/-- `centre_pad` emits a line of exactly the field width whenever the text
fits. -/
theorem centre_pad_length (text : String) (width : Nat) (h : text.length ≤ width) :
    (centre_pad text width).length = width := by
  unfold centre_pad
  by_cases hw : width ≤ text.length
  · rw [if_pos hw]
    omega
  · rw [if_neg hw]
    simp only [string_length_append, spaces_length]
    omega

/-- The length of a joined string list is the sum of the lengths. -/
theorem strJoin_length (l : List String) :
    (strJoin l).length = (l.map String.length).sum := by
  induction l with
  | nil => simp [strJoin, String.length]
  | cons s rest ih => simp [strJoin, string_length_append, ih]

/-- The element right after a list used as a position marker. -/
theorem get?_append_cons (P : List String) (x : String) (T : List String) :
    (P ++ x :: T).get? P.length = some x := by
  rw [List.get?_append_right (Nat.le_refl P.length), Nat.sub_self]
  rfl

/-- The second element after a list used as a position marker. -/
theorem get?_append_cons_succ (P : List String) (x y : String) (T : List String) :
    (P ++ x :: y :: T).get? (P.length + 1) = some y := by
  rw [List.get?_append_right (Nat.le_succ_of_le (Nat.le_refl P.length))]
  rw [show P.length.succ - P.length = 1 from by omega]
  rfl

/-- Two adjacent lines exist at some position once the list splits around
them. -/
theorem exists_adjacent_of_split (ls P M : List String) (x y : String)
    (h : ls = P ++ x :: y :: M) :
    ∃ i, ls.get? i = some x ∧ ls.get? (i + 1) = some y :=
  ⟨P.length, by rw [h]; exact get?_append_cons P x (y :: M),
    by rw [h]; exact get?_append_cons_succ P x y M⟩

/-- The agreement of the integer floor-division translation with the
source's `math.floor((score - 10) / 2)` over the rationals. -/
theorem calculate_ability_modifier_eq_floor (s : Int) :
    calculate_ability_modifier s = ⌊((s : ℚ) - 10) / 2⌋ := by
  unfold calculate_ability_modifier
  have h : ((s : ℚ) - 10) / 2 = ((s - 10 : ℤ) : ℚ) / ((2 : ℕ) : ℚ) := by
    push_cast
    ring
  rw [h, Rat.floor_intCast_div_natCast, Int.fdiv_eq_ediv _ (by norm_num)]
  norm_num

/-! ### Inversion of the render pipeline -/

/-- Below the width floor the render is exactly the width error. -/
theorem battle_info_lt (sb : StatBlock) (w : Nat) (h : w < 56) :
    battle_info sb w = Except.error widthErrMsg := by
  unfold battle_info
  rw [if_pos h]

/-- A successful render happens exactly at admissible widths with both
attack sections rendered, and the lines are the assembled sections. -/
theorem battle_info_ok_iff (sb : StatBlock) (w : Nat) (ls : List String) :
    battle_info sb w = Except.ok ls ↔
      56 ≤ w ∧ ∃ ml rl, meleeSection sb w = Except.ok ml ∧
        rangedSection sb w = Except.ok rl ∧ ls = assembled sb w ml rl := by
  unfold battle_info
  rcases Nat.lt_or_ge w 56 with h | h
  · rw [if_pos h]
    simp [Nat.not_le.mpr h]
  · rw [if_neg (Nat.not_lt.mpr h)]
    cases hm : meleeSection sb w with
    | error e => simp [h]
    | ok ml =>
      cases hr : rangedSection sb w with
      | error e => simp [h]
      | ok rl => simp [h, eq_comm]

/-- The attack loop succeeds exactly when every attack's text renders. -/
theorem renderAttacks_ok_iff
    (fmt : String → List (String × String) → Except String String)
    (w : Nat) (l : List (String × List (String × String))) :
    (∃ ls, renderAttacks fmt w l = Except.ok ls) ↔
      ∀ p ∈ l, ∃ t, fmt p.1 p.2 = Except.ok t := by
  induction l with
  | nil => simp [renderAttacks]
  | cons hd tl ih =>
    obtain ⟨n, d⟩ := hd
    simp only [renderAttacks, List.mem_cons]
    cases hf : fmt n d with
    | error e =>
      constructor
      · rintro ⟨ls, hls⟩
        cases hls
      · intro hall
        obtain ⟨t, ht⟩ := hall (n, d) (Or.inl rfl)
        rw [hf] at ht
        cases ht
    | ok t =>
      cases hr : renderAttacks fmt w tl with
      | error e =>
        constructor
        · rintro ⟨ls, hls⟩
          cases hls
        · intro hall
          have : ∃ ls, renderAttacks fmt w tl = Except.ok ls := by
            rw [ih]
            intro p hp
            exact hall p (Or.inr hp)
          rw [hr] at this
          obtain ⟨ls, hls⟩ := this
          cases hls
      | ok ls =>
        constructor
        · intro _
          intro p hp
          rcases hp with hp | hp
          · subst hp
            exact ⟨t, hf⟩
          · have : ∃ ls, renderAttacks fmt w tl = Except.ok ls := ⟨ls, hr⟩
            rw [ih] at this
            exact this p hp
        · intro _
          exact ⟨format_indented_paragraph t w ++ ls, rfl⟩

/-- A melee attack's text renders exactly when its four keys are present. -/
theorem meleeAttackText_ok_iff (n : String) (d : List (String × String)) :
    (∃ t, meleeAttackText n d = Except.ok t) ↔ meleeKeysOk d := by
  unfold meleeAttackText meleeKeysOk
  cases h1 : alookup d "hit" <;> cases h2 : alookup d "reach" <;>
    cases h3 : alookup d "targets" <;> cases h4 : alookup d "damage" <;> simp

/-- A ranged attack's text renders exactly when its four keys are present. -/
theorem rangedAttackText_ok_iff (n : String) (d : List (String × String)) :
    (∃ t, rangedAttackText n d = Except.ok t) ↔ rangedKeysOk d := by
  unfold rangedAttackText rangedKeysOk
  cases h1 : alookup d "hit" <;> cases h2 : alookup d "range" <;>
    cases h3 : alookup d "targets" <;> cases h4 : alookup d "damage" <;> simp

/-- The melee section succeeds exactly when every visited melee attack has
its required keys. -/
theorem meleeSection_ok_iff (sb : StatBlock) (w : Nat) :
    (∃ ls, meleeSection sb w = Except.ok ls) ↔ ∀ p ∈ meleeList sb, meleeKeysOk p.2 := by
  unfold meleeSection meleeList
  by_cases h : otruthy sb.melee_attacks
  · rw [if_pos h, if_pos h, renderAttacks_ok_iff]
    constructor
    · intro hall p hp
      exact (meleeAttackText_ok_iff p.1 p.2).mp (hall p hp)
    · intro hall p hp
      exact (meleeAttackText_ok_iff p.1 p.2).mpr (hall p hp)
  · rw [if_neg h, if_neg h]
    simp

/-- The ranged section succeeds exactly when every visited ranged attack
has its required keys. -/
theorem rangedSection_ok_iff (sb : StatBlock) (w : Nat) :
    (∃ ls, rangedSection sb w = Except.ok ls) ↔ ∀ p ∈ rangedList sb, rangedKeysOk p.2 := by
  unfold rangedSection rangedList
  by_cases h : otruthy sb.ranged_attacks
  · rw [if_pos h, if_pos h, renderAttacks_ok_iff]
    constructor
    · intro hall p hp
      exact (rangedAttackText_ok_iff p.1 p.2).mp (hall p hp)
    · intro hall p hp
      exact (rangedAttackText_ok_iff p.1 p.2).mpr (hall p hp)
  · rw [if_neg h, if_neg h]
    simp

/-- A render succeeds exactly at admissible widths on well-formed attack
mappings. -/
theorem battle_info_isOk_iff (sb : StatBlock) (w : Nat) :
    (∃ ls, battle_info sb w = Except.ok ls) ↔ (56 ≤ w ∧ attacksWellFormed sb) := by
  constructor
  · rintro ⟨ls, hls⟩
    rw [battle_info_ok_iff] at hls
    obtain ⟨hw, ml, rl, hml, hrl, _⟩ := hls
    refine ⟨hw, ?_, ?_⟩
    · exact (meleeSection_ok_iff sb w).mp ⟨ml, hml⟩
    · exact (rangedSection_ok_iff sb w).mp ⟨rl, hrl⟩
  · rintro ⟨hw, hm, hr⟩
    obtain ⟨ml, hml⟩ := (meleeSection_ok_iff sb w).mpr hm
    obtain ⟨rl, hrl⟩ := (rangedSection_ok_iff sb w).mpr hr
    exact ⟨assembled sb w ml rl, (battle_info_ok_iff sb w _).mpr ⟨hw, ml, rl, hml, hrl, rfl⟩⟩

/-- With a falsy `languages` field the languages section is the single
default line, at any width that fits it. -/
theorem languagesLines_default (sb : StatBlock) (w : Nat) (hw : 15 ≤ w)
    (h : ¬ otruthy sb.languages = true) : languagesLines sb w = ["Languages: none"] := by
  unfold languagesLines format_list
  rw [if_neg h]
  have hstr : "Languages" ++ ": " ++ String.intercalate ", " ["none"] = "Languages: none" := by
    decide
  rw [hstr]
  unfold format_indented_paragraph
  rw [show wsTokens "Languages: none" = ["Languages:", "none"] from by decide]
  unfold wrapAux
  have hc : ("Languages:" : String).length + 1 + ("none" : String).length ≤ w := by
    have he : ("Languages:" : String).length + 1 + ("none" : String).length = 15 := by
      decide
    omega
  rw [if_pos hc]
  unfold wrapAux
  decide

/-- With `languages = ["Common"]` the languages section is the single line
`"Languages: Common"`, at any width that fits it. -/
theorem languagesLines_common (sb : StatBlock) (w : Nat) (hw : 17 ≤ w)
    (h : sb.languages = some ["Common"]) : languagesLines sb w = ["Languages: Common"] := by
  unfold languagesLines format_list
  rw [h]
  rw [show otruthy (some ["Common"]) = true from by decide]
  simp only [if_pos]
  have hstr : "Languages" ++ ": " ++ String.intercalate ", " (oval (some ["Common"]))
      = "Languages: Common" := by decide
  rw [hstr]
  unfold format_indented_paragraph
  rw [show wsTokens "Languages: Common" = ["Languages:", "Common"] from by decide]
  unfold wrapAux
  have hc : ("Languages:" : String).length + 1 + ("Common" : String).length ≤ w := by
    have he : ("Languages:" : String).length + 1 + ("Common" : String).length = 17 := by
      decide
    omega
  rw [if_pos hc]
  unfold wrapAux
  decide

/-! ### The claims -/

/-- C2: with well-formed attack mappings, `battle_info` fails exactly below
width 56 — with the width `ValueError` and no lines at all (the error is
the whole result, so the caller receives no partial render) — and any
width of at least 56 renders without a width error. -/
theorem claim_C2 (sb : StatBlock) (w : Nat) (hwf : attacksWellFormed sb) :
    (w < 56 → battle_info sb w = Except.error widthErrMsg) ∧
    (56 ≤ w → ∃ ls, battle_info sb w = Except.ok ls) := by
  constructor
  · intro h
    exact battle_info_lt sb w h
  · intro h
    exact (battle_info_isOk_iff sb w).mpr ⟨h, hwf⟩

/-- Witness for C2 at the fully populated stat block and width 55. -/
theorem claim_C2_witness :
    attacksWellFormed fullStat ∧
      ((55 < 56 → battle_info fullStat 55 = Except.error widthErrMsg) ∧
        (56 ≤ 55 → ∃ ls, battle_info fullStat 55 = Except.ok ls)) :=
  ⟨by decide, claim_C2 fullStat 55 (by decide)⟩

/-- C4: the ability modifier is the floor of `(score - 10) / 2` for every
integer score, with the stated values at scores 10, 11, 8, 20 and 1, and
the rendered score cell is the score followed by the explicitly signed
modifier in parentheses. -/
theorem claim_C4 :
    (∀ s : ℤ, calculate_ability_modifier s = ⌊((s : ℚ) - 10) / 2⌋) ∧
    calculate_ability_modifier 10 = 0 ∧ calculate_ability_modifier 11 = 0 ∧
    calculate_ability_modifier 8 = -1 ∧ calculate_ability_modifier 20 = 5 ∧
    calculate_ability_modifier 1 = -5 ∧
    (∀ s : ℤ, scoreCell s
      = toString s ++ "(" ++ signedStr (calculate_ability_modifier s) ++ ")") ∧
    scoreCell 10 = "10(+0)" ∧ scoreCell 8 = "8(-1)" ∧
    scoreCell 20 = "20(+5)" ∧ scoreCell 1 = "1(-5)" ∧
    (∀ sb : StatBlock, ∀ w : Nat, abilityScoreRow sb w
      = centre_pad (strJoin (sb.ability.map
          (fun p => centre_pad (scoreCell p.2) (abilityWidth sb w)))) w) :=
  ⟨calculate_ability_modifier_eq_floor, by decide, by decide, by decide, by decide,
   by decide, fun _ => rfl, by decide, by decide, by decide, by decide,
   fun _ _ => rfl⟩

/-- C8: the renderers are pure: the state-passing reading of each method
returns the receiver unchanged, and re-rendering from the post-state
returns the same lines, so each rendering is a deterministic function of
the stat block and width. -/
theorem claim_C8 (sb : StatBlock) (w : Nat) (q : Option Int) :
    (battle_infoSt sb w).2 = sb ∧ (summary_infoSt sb w q).2 = sb ∧
    (battle_infoSt sb w).1 = battle_info sb w ∧
    (summary_infoSt sb w q).1 = summary_info sb w q ∧
    battle_info (battle_infoSt sb w).2 w = battle_info sb w ∧
    summary_info (summary_infoSt sb w q).2 w q = summary_info sb w q :=
  ⟨rfl, rfl, rfl, rfl, rfl, rfl⟩

/-- C9: presence is tested by truthiness, so an empty-but-present
collection renders exactly like an absent one: the whole output is
unchanged when `saving_throws`, `skills` or `languages` is the empty
collection instead of `None`, the empty sections emit nothing, and empty
`languages` falls back to the default line. -/
theorem claim_C9 (sb : StatBlock) (w : Nat) :
    battle_info { sb with saving_throws := some [] } w
      = battle_info { sb with saving_throws := none } w ∧
    battle_info { sb with skills := some [] } w
      = battle_info { sb with skills := none } w ∧
    battle_info { sb with languages := some [] } w
      = battle_info { sb with languages := none } w ∧
    savingThrowsLines { sb with saving_throws := some [] } w = [] ∧
    skillsLines { sb with skills := some [] } w = [] ∧
    (15 ≤ w → languagesLines { sb with languages := some [] } w = ["Languages: none"]) :=
  ⟨rfl, rfl, rfl, rfl, rfl,
   fun hw => languagesLines_default _ w hw (by simp [otruthy])⟩

/-- Witness for C9 at the minimal stat block and width 80. -/
theorem claim_C9_witness :
    battle_info { exampleStat with saving_throws := some [] } 80
      = battle_info { exampleStat with saving_throws := none } 80 ∧
    battle_info { exampleStat with skills := some [] } 80
      = battle_info { exampleStat with skills := none } 80 ∧
    battle_info { exampleStat with languages := some [] } 80
      = battle_info { exampleStat with languages := none } 80 ∧
    savingThrowsLines { exampleStat with saving_throws := some [] } 80 = [] ∧
    skillsLines { exampleStat with skills := some [] } 80 = [] ∧
    (15 ≤ 80 → languagesLines { exampleStat with languages := some [] } 80
      = ["Languages: none"]) :=
  claim_C9 exampleStat 80

/-- C10: at admissible widths the render succeeds exactly when every melee
attack mapping has the keys `hit`, `reach`, `targets`, `damage` and every
ranged attack mapping has `hit`, `range`, `targets`, `damage`; a missing
key makes the whole render fail with a key-lookup error; a present `info`
key appends a trailing sentence to the attack paragraph. -/
theorem claim_C10 (sb : StatBlock) (w : Nat) (hw : 56 ≤ w) :
    ((∃ ls, battle_info sb w = Except.ok ls) ↔ attacksWellFormed sb) ∧
    (¬ attacksWellFormed sb → ∃ e, battle_info sb w = Except.error e) ∧
    (∀ n d hit reach targets damage info,
      alookup d "hit" = some hit → alookup d "reach" = some reach →
      alookup d "targets" = some targets → alookup d "damage" = some damage →
      alookup d "info" = some info →
      meleeAttackText n d
        = Except.ok (meleeBase n hit reach targets damage ++ " " ++ info ++ ".")) ∧
    (∀ n d hit range targets damage info,
      alookup d "hit" = some hit → alookup d "range" = some range →
      alookup d "targets" = some targets → alookup d "damage" = some damage →
      alookup d "info" = some info →
      rangedAttackText n d
        = Except.ok (rangedBase n hit range targets damage ++ " " ++ info ++ ".")) := by
  refine ⟨?_, ?_, ?_, ?_⟩
  · rw [battle_info_isOk_iff]
    simp [hw]
  · intro hnwf
    cases hb : battle_info sb w with
    | ok ls =>
      exact absurd ((battle_info_isOk_iff sb w).mp ⟨ls, hb⟩).2 hnwf
    | error e => exact ⟨e, rfl⟩
  · intro n d hit reach targets damage info h1 h2 h3 h4 h5
    simp [meleeAttackText, h1, h2, h3, h4, withInfo, h5]
  · intro n d hit range targets damage info h1 h2 h3 h4 h5
    simp [rangedAttackText, h1, h2, h3, h4, withInfo, h5]

/-- Witness for C10 at the fully populated stat block and width 60. -/
theorem claim_C10_witness :
    56 ≤ 60 ∧
    (((∃ ls, battle_info fullStat 60 = Except.ok ls) ↔ attacksWellFormed fullStat) ∧
    (¬ attacksWellFormed fullStat → ∃ e, battle_info fullStat 60 = Except.error e) ∧
    (∀ n d hit reach targets damage info,
      alookup d "hit" = some hit → alookup d "reach" = some reach →
      alookup d "targets" = some targets → alookup d "damage" = some damage →
      alookup d "info" = some info →
      meleeAttackText n d
        = Except.ok (meleeBase n hit reach targets damage ++ " " ++ info ++ ".")) ∧
    (∀ n d hit range targets damage info,
      alookup d "hit" = some hit → alookup d "range" = some range →
      alookup d "targets" = some targets → alookup d "damage" = some damage →
      alookup d "info" = some info →
      rangedAttackText n d
        = Except.ok (rangedBase n hit range targets damage ++ " " ++ info ++ "."))) :=
  ⟨by decide, claim_C10 fullStat 60 (by decide)⟩

/-- C1 fails as stated: at width 56 the render succeeds but its first line
is the unpadded AC line of length 5, and the unpadded size/type/alignment
line of `summary_info` at width 56 has length 22. -/
theorem claim_C1_counterexample :
    battle_info exampleStat 56 = Except.ok (linesOf (battle_info exampleStat 56)) ∧
    "AC 15" ∈ linesOf (battle_info exampleStat 56) ∧
    ¬ ("AC 15" : String).length = 56 ∧
    (summary_info exampleStat 56 none).get? 2 = some "Large beast, unaligned" ∧
    ¬ ("Large beast, unaligned" : String).length = 56 :=
  ⟨by decide, by decide, by decide, by decide, by decide⟩

/-- C1 amended: every separator line emitted by `battle_info` — the dash
rules after the Speed line (position 3), after the ability rows
(position 6), and directly under the centred Special-traits and Actions
headers — and the `=` rule of `summary_info` (position 1) has length
exactly `line_width`; the centred Special-traits and Actions header lines
have length exactly `line_width`; the two centred ability rows
(positions 4 and 5) and the centred `summary_info` header (position 0)
have length exactly `line_width` whenever their content fits within
`line_width`; but the lines built by plain interpolation or paragraph
wrapping (AC/HP/Speed, list and paragraph lines, the size/type/alignment
line) are emitted unpadded and need not have that length. -/
theorem claim_C1_amended (sb : StatBlock) (w : Nat) (ls : List String) (hw : 56 ≤ w)
    (h : battle_info sb w = Except.ok ls) :
    ls.get? 3 = some (dashLine w) ∧ ls.get? 6 = some (dashLine w) ∧
    (dashLine w).length = w ∧
    (∃ i, ls.get? i = some (centre_pad "Special traits" w) ∧
      ls.get? (i + 1) = some (dashLine w)) ∧
    (∃ j, ls.get? j = some (centre_pad "Actions" w) ∧
      ls.get? (j + 1) = some (dashLine w)) ∧
    (centre_pad "Special traits" w).length = w ∧
    (centre_pad "Actions" w).length = w ∧
    ls.get? 4 = some (abilityNameRow sb w) ∧ ls.get? 5 = some (abilityScoreRow sb w) ∧
    ((abilityNamesJoined sb w).length ≤ w → (abilityNameRow sb w).length = w) ∧
    ((abilityScoresJoined sb w).length ≤ w → (abilityScoreRow sb w).length = w) ∧
    (summary_info sb w none).get? 0 = some (centre_pad sb.name w) ∧
    (sb.name.length ≤ w → (centre_pad sb.name w).length = w) ∧
    (summary_info sb w none).get? 1 = some (eqLine w) ∧ (eqLine w).length = w := by
  rw [battle_info_ok_iff] at h
  obtain ⟨_, ml, rl, _, _, hls⟩ := h
  subst hls
  have hST : ("Special traits" : String).length ≤ w := by
    have he : ("Special traits" : String).length = 14 := by decide
    omega
  have hA : ("Actions" : String).length ≤ w := by
    have he : ("Actions" : String).length = 7 := by decide
    omega
  have hsplit1 : assembled sb w ml rl =
      (acLine sb :: hpLine sb :: speedLine sb :: dashLine w :: abilityNameRow sb w ::
       abilityScoreRow sb w :: dashLine w ::
       (savingThrowsLines sb w ++ (skillsLines sb w ++ (vulnerabilitiesLines sb w ++
        (resistancesLines sb w ++ (immunitiesLines sb w ++ (conditionImmunitiesLines sb w ++
         (passivePerceptionLine sb :: (sensesLines sb w ++ (languagesLines sb w ++
          (challengeLine sb :: [""]))))))))))) ++
      (centre_pad "Special traits" w :: dashLine w ::
       (traitsLines sb w ++ ("" :: centre_pad "Actions" w :: dashLine w ::
        (ml ++ (rl ++ (multiattackLines sb w ++ (otherActionsLines sb w ++
         ("" :: descriptionLines sb w)))))))) := by
    simp [assembled, List.append_assoc]
  have hsplit2 : assembled sb w ml rl =
      (acLine sb :: hpLine sb :: speedLine sb :: dashLine w :: abilityNameRow sb w ::
       abilityScoreRow sb w :: dashLine w ::
       (savingThrowsLines sb w ++ (skillsLines sb w ++ (vulnerabilitiesLines sb w ++
        (resistancesLines sb w ++ (immunitiesLines sb w ++ (conditionImmunitiesLines sb w ++
         (passivePerceptionLine sb :: (sensesLines sb w ++ (languagesLines sb w ++
          (challengeLine sb :: "" :: centre_pad "Special traits" w :: dashLine w ::
           (traitsLines sb w ++ [""])))))))))))) ++
      (centre_pad "Actions" w :: dashLine w ::
       (ml ++ (rl ++ (multiattackLines sb w ++ (otherActionsLines sb w ++
        ("" :: descriptionLines sb w)))))) := by
    simp [assembled, List.append_assoc]
  refine ⟨rfl, rfl, dashLine_length w,
    exists_adjacent_of_split _ _ _ _ _ hsplit1,
    exists_adjacent_of_split _ _ _ _ _ hsplit2,
    centre_pad_length _ _ hST, centre_pad_length _ _ hA,
    rfl, rfl, ?_, ?_, rfl, ?_, rfl, eqLine_length w⟩
  · intro hf
    exact centre_pad_length _ _ hf
  · intro hf
    exact centre_pad_length _ _ hf
  · intro hf
    exact centre_pad_length _ _ hf

/-- Witness for the amended C1 at the minimal stat block and width 56. -/
theorem claim_C1_amended_witness :
    56 ≤ 56 ∧
    battle_info exampleStat 56 = Except.ok (linesOf (battle_info exampleStat 56)) ∧
    ((linesOf (battle_info exampleStat 56)).get? 3 = some (dashLine 56) ∧
     (linesOf (battle_info exampleStat 56)).get? 6 = some (dashLine 56) ∧
     (dashLine 56).length = 56 ∧
     (∃ i, (linesOf (battle_info exampleStat 56)).get? i
         = some (centre_pad "Special traits" 56) ∧
       (linesOf (battle_info exampleStat 56)).get? (i + 1) = some (dashLine 56)) ∧
     (∃ j, (linesOf (battle_info exampleStat 56)).get? j
         = some (centre_pad "Actions" 56) ∧
       (linesOf (battle_info exampleStat 56)).get? (j + 1) = some (dashLine 56)) ∧
     (centre_pad "Special traits" 56).length = 56 ∧
     (centre_pad "Actions" 56).length = 56 ∧
     (linesOf (battle_info exampleStat 56)).get? 4
       = some (abilityNameRow exampleStat 56) ∧
     (linesOf (battle_info exampleStat 56)).get? 5
       = some (abilityScoreRow exampleStat 56) ∧
     ((abilityNamesJoined exampleStat 56).length ≤ 56
       → (abilityNameRow exampleStat 56).length = 56) ∧
     ((abilityScoresJoined exampleStat 56).length ≤ 56
       → (abilityScoreRow exampleStat 56).length = 56) ∧
     (summary_info exampleStat 56 none).get? 0
       = some (centre_pad exampleStat.name 56) ∧
     (exampleStat.name.length ≤ 56 → (centre_pad exampleStat.name 56).length = 56) ∧
     (summary_info exampleStat 56 none).get? 1 = some (eqLine 56) ∧
     (eqLine 56).length = 56) :=
  ⟨by decide, by decide,
   claim_C1_amended exampleStat 56 (linesOf (battle_info exampleStat 56))
     (by decide) (by decide)⟩

/-- C3: at an admissible width, once the melee and ranged attack sections
have rendered, `battle_info` emits exactly the sections in the fixed
source order: AC, HP, Speed, a separator, the ability-name row, the
ability-score row, a separator, saving throws, skills, vulnerabilities,
resistances, damage immunities, condition immunities, passive perception,
senses, languages, challenge, a blank line, the centred Special-traits
header and rule, the trait paragraphs, a blank line, the centred Actions
header and rule, melee attacks, ranged attacks, multiattack, other
actions, a blank line, and the description (each optional section
contributing nothing when absent). -/
theorem claim_C3 (sb : StatBlock) (w : Nat) (ml rl : List String) (hw : 56 ≤ w)
    (hm : meleeSection sb w = Except.ok ml) (hr : rangedSection sb w = Except.ok rl) :
    battle_info sb w = Except.ok
      ([acLine sb, hpLine sb, speedLine sb] ++ [dashLine w] ++
       [abilityNameRow sb w, abilityScoreRow sb w] ++ [dashLine w] ++
       savingThrowsLines sb w ++ skillsLines sb w ++
       vulnerabilitiesLines sb w ++ resistancesLines sb w ++
       immunitiesLines sb w ++ conditionImmunitiesLines sb w ++
       [passivePerceptionLine sb] ++ sensesLines sb w ++ languagesLines sb w ++
       [challengeLine sb] ++
       ["", centre_pad "Special traits" w, dashLine w] ++ traitsLines sb w ++
       ["", centre_pad "Actions" w, dashLine w] ++
       ml ++ rl ++ multiattackLines sb w ++ otherActionsLines sb w ++
       [""] ++ descriptionLines sb w) := by
  rw [battle_info_ok_iff]
  refine ⟨hw, ml, rl, hm, hr, ?_⟩
  simp [assembled]

/-- Witness for C3 at the fully populated stat block and width 60. -/
theorem claim_C3_witness :
    56 ≤ 60 ∧
    meleeSection fullStat 60 = Except.ok (linesOf (meleeSection fullStat 60)) ∧
    rangedSection fullStat 60 = Except.ok (linesOf (rangedSection fullStat 60)) ∧
    battle_info fullStat 60 = Except.ok
      ([acLine fullStat, hpLine fullStat, speedLine fullStat] ++ [dashLine 60] ++
       [abilityNameRow fullStat 60, abilityScoreRow fullStat 60] ++ [dashLine 60] ++
       savingThrowsLines fullStat 60 ++ skillsLines fullStat 60 ++
       vulnerabilitiesLines fullStat 60 ++ resistancesLines fullStat 60 ++
       immunitiesLines fullStat 60 ++ conditionImmunitiesLines fullStat 60 ++
       [passivePerceptionLine fullStat] ++ sensesLines fullStat 60 ++
       languagesLines fullStat 60 ++
       [challengeLine fullStat] ++
       ["", centre_pad "Special traits" 60, dashLine 60] ++ traitsLines fullStat 60 ++
       ["", centre_pad "Actions" 60, dashLine 60] ++
       linesOf (meleeSection fullStat 60) ++ linesOf (rangedSection fullStat 60) ++
       multiattackLines fullStat 60 ++ otherActionsLines fullStat 60 ++
       [""] ++ descriptionLines fullStat 60) :=
  ⟨by decide, by decide, by decide,
   claim_C3 fullStat 60 (linesOf (meleeSection fullStat 60))
     (linesOf (rangedSection fullStat 60)) (by decide) (by decide) (by decide)⟩

/-- C5: with six abilities whose name and score cells fit their field,
each cell is centred in a field of exactly `line_width / 6` characters
(13 characters at width 80), and each joined row is `6 * (line_width / 6)`
characters, which is at most `line_width`. -/
theorem claim_C5 (sb : StatBlock) (w : Nat) (hw : 56 ≤ w) (h6 : sb.ability.length = 6)
    (hfit : ∀ p ∈ sb.ability, p.1.length ≤ w / 6 ∧ (scoreCell p.2).length ≤ w / 6) :
    abilityWidth sb w = w / 6 ∧
    (∀ p ∈ sb.ability, (centre_pad p.1 (abilityWidth sb w)).length = w / 6 ∧
      (centre_pad (scoreCell p.2) (abilityWidth sb w)).length = w / 6) ∧
    (abilityNamesJoined sb w).length = 6 * (w / 6) ∧
    (abilityScoresJoined sb w).length = 6 * (w / 6) ∧
    6 * (w / 6) ≤ w ∧ abilityWidth sb 80 = 13 := by
  have hweq : abilityWidth sb w = w / 6 := by
    unfold abilityWidth
    rw [h6]
  have hcells : ∀ p ∈ sb.ability, (centre_pad p.1 (abilityWidth sb w)).length = w / 6 ∧
      (centre_pad (scoreCell p.2) (abilityWidth sb w)).length = w / 6 := by
    intro p hp
    rw [hweq]
    exact ⟨centre_pad_length _ _ (hfit p hp).1, centre_pad_length _ _ (hfit p hp).2⟩
  have hnames : (abilityNamesJoined sb w).length = 6 * (w / 6) := by
    unfold abilityNamesJoined
    rw [strJoin_length, List.map_map]
    rw [show (sb.ability.map (String.length ∘ fun p => centre_pad p.1 (abilityWidth sb w)))
        = List.replicate 6 (w / 6) from ?_]
    · exact List.sum_const_nat 6 (w / 6)
    · rw [List.eq_replicate_iff]
      refine ⟨by simp [h6], ?_⟩
      intro b hb
      obtain ⟨p, hp, hpb⟩ := List.mem_map.mp hb
      rw [← hpb]
      exact (hcells p hp).1
  have hscores : (abilityScoresJoined sb w).length = 6 * (w / 6) := by
    unfold abilityScoresJoined
    rw [strJoin_length, List.map_map]
    rw [show (sb.ability.map
          (String.length ∘ fun p => centre_pad (scoreCell p.2) (abilityWidth sb w)))
        = List.replicate 6 (w / 6) from ?_]
    · exact List.sum_const_nat 6 (w / 6)
    · rw [List.eq_replicate_iff]
      refine ⟨by simp [h6], ?_⟩
      intro b hb
      obtain ⟨p, hp, hpb⟩ := List.mem_map.mp hb
      rw [← hpb]
      exact (hcells p hp).2
  refine ⟨hweq, hcells, hnames, hscores, ?_, ?_⟩
  · calc 6 * (w / 6) = w / 6 * 6 := Nat.mul_comm 6 (w / 6)
    _ ≤ w := Nat.div_mul_le_self w 6
  · unfold abilityWidth
    rw [h6]

/-- Witness for C5 at the minimal stat block and width 80. -/
theorem claim_C5_witness :
    56 ≤ 80 ∧ exampleStat.ability.length = 6 ∧
    (∀ p ∈ exampleStat.ability,
      p.1.length ≤ 80 / 6 ∧ (scoreCell p.2).length ≤ 80 / 6) ∧
    (abilityWidth exampleStat 80 = 80 / 6 ∧
     (∀ p ∈ exampleStat.ability,
       (centre_pad p.1 (abilityWidth exampleStat 80)).length = 80 / 6 ∧
       (centre_pad (scoreCell p.2) (abilityWidth exampleStat 80)).length = 80 / 6) ∧
     (abilityNamesJoined exampleStat 80).length = 6 * (80 / 6) ∧
     (abilityScoresJoined exampleStat 80).length = 6 * (80 / 6) ∧
     6 * (80 / 6) ≤ 80 ∧ abilityWidth exampleStat 80 = 13) :=
  ⟨by decide, by decide, by decide,
   claim_C5 exampleStat 80 (by decide) (by decide) (by decide)⟩

/-- C6: every successful render has a Languages line: the default
`"Languages: none"` when the field is absent, and `"Languages: Common"`
when the field is `["Common"]`. -/
theorem claim_C6 (sb : StatBlock) (w : Nat) (ls : List String) (hw : 56 ≤ w)
    (h : battle_info sb w = Except.ok ls) :
    (sb.languages = none → "Languages: none" ∈ ls) ∧
    (sb.languages = some ["Common"] → "Languages: Common" ∈ ls) := by
  rw [battle_info_ok_iff] at h
  obtain ⟨_, ml, rl, _, _, hls⟩ := h
  subst hls
  constructor
  · intro hl
    have hlang : languagesLines sb w = ["Languages: none"] :=
      languagesLines_default sb w (by omega) (by simp [hl, otruthy])
    simp [assembled, hlang]
  · intro hl
    have hlang : languagesLines sb w = ["Languages: Common"] :=
      languagesLines_common sb w (by omega) hl
    simp [assembled, hlang]

/-- Witness for C6 at the minimal stat block (absent languages), width 56. -/
theorem claim_C6_witness :
    56 ≤ 56 ∧
    battle_info exampleStat 56 = Except.ok (linesOf (battle_info exampleStat 56)) ∧
    ((exampleStat.languages = none
        → "Languages: none" ∈ linesOf (battle_info exampleStat 56)) ∧
     (exampleStat.languages = some ["Common"]
        → "Languages: Common" ∈ linesOf (battle_info exampleStat 56))) :=
  ⟨by decide, by decide,
   claim_C6 exampleStat 56 (linesOf (battle_info exampleStat 56))
     (by decide) (by decide)⟩

/-- C7: with no saving throws, no skills and no special traits (and
well-formed attack mappings), the render raises no error, the
saving-throws, skills and trait sections contribute no lines, and the
Special-traits block is only its centred header and rule. -/
theorem claim_C7 (sb : StatBlock) (w : Nat) (hw : 56 ≤ w)
    (hs : sb.saving_throws = none) (hk : sb.skills = none)
    (ht : sb.special_traits = none) (hwf : attacksWellFormed sb) :
    savingThrowsLines sb w = [] ∧ skillsLines sb w = [] ∧ traitsLines sb w = [] ∧
    ∃ ls, battle_info sb w = Except.ok ls ∧
      centre_pad "Special traits" w ∈ ls ∧ dashLine w ∈ ls := by
  refine ⟨?_, ?_, ?_, ?_⟩
  · simp [savingThrowsLines, hs, otruthy]
  · simp [skillsLines, hk, otruthy]
  · simp [traitsLines, ht, otruthy]
  · obtain ⟨ls, hls⟩ := (battle_info_isOk_iff sb w).mpr ⟨hw, hwf⟩
    refine ⟨ls, hls, ?_, ?_⟩
    · rw [battle_info_ok_iff] at hls
      obtain ⟨_, ml, rl, _, _, hlse⟩ := hls
      subst hlse
      simp [assembled]
    · rw [battle_info_ok_iff] at hls
      obtain ⟨_, ml, rl, _, _, hlse⟩ := hls
      subst hlse
      simp [assembled]

/-- Witness for C7 at the minimal stat block and width 56. -/
theorem claim_C7_witness :
    56 ≤ 56 ∧ exampleStat.saving_throws = none ∧ exampleStat.skills = none ∧
    exampleStat.special_traits = none ∧ attacksWellFormed exampleStat ∧
    (savingThrowsLines exampleStat 56 = [] ∧ skillsLines exampleStat 56 = [] ∧
     traitsLines exampleStat 56 = [] ∧
     ∃ ls, battle_info exampleStat 56 = Except.ok ls ∧
       centre_pad "Special traits" 56 ∈ ls ∧ dashLine 56 ∈ ls) :=
  ⟨by decide, by decide, by decide, by decide, by decide,
   claim_C7 exampleStat 56 (by decide) (by decide) (by decide) (by decide) (by decide)⟩

end Fourhills
